import Mathlib

/-!
Shallow embedding of the Crossmint smart-wallet transaction lifecycle
(`src/python/src/wallets/crossmint/goat_wallets/crossmint/smart_wallet.py`).

Python dictionaries with optional keys are embedded as structures with
`Option` fields (`none` = key absent).  Python exceptions become the
`Err` error type of an `Except` result: `ValueError msg` mirrors
`raise ValueError(msg)`, `keyError k` a `KeyError` from bare `d["k"]`
indexing, `indexError` an `IndexError` from indexing an empty list.
Calls to the external custody API, local signing calls and sleeps are
recorded in an event trace; each operation returns the trace it
produced together with its result.  The unbounded `while True:` polling
loops are driven by the finite script of status responses the
environment supplies; `Err.outOfFuel` is the modelling artifact
returned when the script is exhausted with the loop still running.
-/

/-- A normalized custody-API call (`Call` TypedDict of `api_client`):
`{to, value, data}` with `value` a decimal string. -/
structure Call where
  «to» : String
  value : String
  data : String
  deriving Repr, DecidableEq

/-- Errors: Python exception types (with message) observable from the client. -/
inductive Err where
  | valueError (msg : String)
  | keyError (key : String)
  | indexError
  | outOfFuel
  deriving Repr, DecidableEq

/-- Python `value or 0` on an optional integer: `None` and `0` are falsy. -/
def pyOrNat : Option Nat → Nat → Nat
  | none, d => d
  | some v, d => if v = 0 then d else v

/-- Python truthiness of an optional list (`not abi`): `None` and `[]` are falsy. -/
def listTruthy : Option (List α) → Bool
  | none => false
  | some [] => false
  | some (_ :: _) => true

/-- Python truthiness of an optional string (`not function_name`):
`None` and `""` are falsy. -/
def strTruthy : Option String → Bool
  | none => false
  | some s => s ≠ ""

/-- Python `args or []`. -/
def pyOrList : Option (List α) → List α
  | none => []
  | some l => l

/-- The external collaborators delegated by the module: the web3 contract
ABI encoder (`contract.encodeFunction(...).hex()`) and the `eth_account`
signing primitives (`Account.from_key(sk).sign_message(...)` and the
derived `account.address`).  They are opaque parameters of the embedding. -/
structure ExternalFns where
  encodeFunction : List String → String → List String → String
  signHash : String → String → String
  addressOf : String → String

/-- `build_transaction_data(recipient_address, abi, function_name, args, value)`
(smart_wallet.py lines 42-71).  The ABI entries and arguments are opaque
strings; the encoder branch delegates to `ext.encodeFunction`. -/
def buildTransactionData (ext : ExternalFns) (recipientAddress : String)
    (abi : Option (List String)) (functionName : Option String)
    (args : Option (List String)) (value : Option Nat) : Except Err Call :=
  if listTruthy abi = false then
    .ok { «to» := recipientAddress, value := toString (pyOrNat value 0), data := "0x" }
  else if strTruthy functionName = false then
    .error (.valueError "Function name is required when ABI is provided")
  else
    .ok { «to» := recipientAddress,
          value := toString (pyOrNat value 0),
          data := ext.encodeFunction (pyOrList abi) (functionName.getD "") (pyOrList args) }

/-- Signer configuration: `Signer = Union[CustodialSigner, KeyPairSigner]`,
where `CustodialSigner = str` (an address) and
`KeyPairSigner = {'secretKey': str, 'address': str}`. -/
inductive Signer where
  | custodial (address : String)
  | keypair (secretKey : String) (address : String)
  deriving Repr, DecidableEq

/-- `SmartWalletClient.has_custodial_signer`: `isinstance(self._signer, str)`. -/
def Signer.hasCustodial : Signer → Bool
  | .custodial _ => true
  | .keypair _ _ => false

/-- The state a `SmartWalletClient` instance carries that the lifecycle
uses: `self._address`, `self._chain`, `self._signer`.  The locator is
`get_locator(address) = address` for a client built from a bare address. -/
structure SmartWalletClient where
  address : String
  chain : String
  signer : Signer
  deriving Repr, DecidableEq

/-- One entry of `approvals["pending"]`; `message` key may be absent. -/
structure PendingApproval where
  message : Option String
  deriving Repr, DecidableEq

/-- The `approvals` object of a create response; `pending` key may be absent. -/
structure Approvals where
  pending : Option (List PendingApproval)
  deriving Repr, DecidableEq

/-- Custody-API response to `create_transaction_for_smart_wallet`,
`sign_message_for_smart_wallet` or `sign_typed_data_for_smart_wallet`:
`{id, approvals?}`. -/
structure CreateResponse where
  id : String
  approvals : Option Approvals
  deriving Repr, DecidableEq

/-- The `onChain` object of a transaction status response; `txId` may be absent. -/
structure OnChain where
  txId : Option String
  deriving Repr, DecidableEq

/-- Custody-API response to `check_transaction_status`: `{status, onChain?}`. -/
structure TxStatus where
  status : String
  onChain : Option OnChain
  deriving Repr, DecidableEq

/-- Custody-API response to `check_signature_status`: `{status, outputSignature?}`. -/
structure SignStatus where
  status : String
  outputSignature : Option String
  deriving Repr, DecidableEq

/-- One `{signature, signer}` approval item passed to `approve_transaction`. -/
structure ApprovalItem where
  signature : String
  signer : String
  deriving Repr, DecidableEq

/-- Observable events of one operation: each custody-API call with its
arguments, each local `eth_account` signing call, and each
`asyncio.sleep` of the polling loop. -/
inductive Event where
  | createTransaction (address : String) (calls : List Call) (chain : String)
      (approver : Option String)
  | approveTransaction (locator : String) (opId : String) (approvals : List ApprovalItem)
  | checkTransactionStatus (locator : String) (opId : String)
  | signMessageForWallet (address : String) (message : String) (chain : String)
      (approver : Option String)
  | signTypedDataForWallet (address : String) (data : String) (chain : String)
      (approver : String)
  | approveSignature (opId : String) (address : String) (signerTag : String)
      (signature : String)
  | checkSignatureStatus (opId : String) (address : String)
  | localSign (message : String)
  | sleep (seconds : Nat)
  deriving Repr, DecidableEq

/-- Result of transaction submission: `{"hash": ..., "status": ...}`. -/
structure TxResult where
  hash : String
  status : String
  deriving Repr, DecidableEq

/-- Result of a signing operation: `{"signature": ...}`. -/
structure SignResult where
  signature : String
  deriving Repr, DecidableEq

/-- Environment for one transaction submission: the create response and the
successive `check_transaction_status` responses the custody API returns. -/
structure TxEnv where
  createResponse : CreateResponse
  statuses : List TxStatus
  deriving Repr, DecidableEq

/-- Environment for one signing operation: the create response and the
successive `check_signature_status` responses. -/
structure SignEnv where
  createResponse : CreateResponse
  statuses : List SignStatus
  deriving Repr, DecidableEq

/-- The `while True:` polling loop of `_send_batch_of_transactions`
(lines 371-383): fetch the status; if it is `"success"` or `"failed"`,
return `{hash: status.get("onChain", {}).get("txId", ""), status}`;
otherwise `asyncio.sleep(2)` and retry.  The loop is driven by the
finite script of responses; an exhausted script yields `Err.outOfFuel`. -/
def pollTransactionStatus (locator : String) (opId : String) :
    List TxStatus → List Event × Except Err TxResult
  | [] => ([], .error .outOfFuel)
  | s :: rest =>
    if s.status = "success" ∨ s.status = "failed" then
      ([.checkTransactionStatus locator opId],
       .ok { hash := (match s.onChain with
                      | none => ""
                      | some oc => oc.txId.getD ""),
             status := s.status })
    else
      let next := pollTransactionStatus locator opId rest
      (.checkTransactionStatus locator opId :: .sleep 2 :: next.1, next.2)

/-- The `while True:` polling loop shared verbatim by `sign_message`
(lines 212-226) and `sign_typed_data` (lines 257-271): fetch the
signature status; on `"success"` require a truthy `outputSignature`
(else `ValueError("Signature is undefined")`) and return it; on
`"failed"` raise `ValueError("Signature failed")`; otherwise
`asyncio.sleep(2)` and retry. -/
def pollSignatureStatus (opId : String) (address : String) :
    List SignStatus → List Event × Except Err SignResult
  | [] => ([], .error .outOfFuel)
  | s :: rest =>
    if s.status = "success" then
      (match s.outputSignature with
       | none => ([.checkSignatureStatus opId address],
                  .error (.valueError "Signature is undefined"))
       | some sig =>
         if sig = "" then
           ([.checkSignatureStatus opId address],
            .error (.valueError "Signature is undefined"))
         else
           ([.checkSignatureStatus opId address], .ok { signature := sig }))
    else if s.status = "failed" then
      ([.checkSignatureStatus opId address], .error (.valueError "Signature failed"))
    else
      let next := pollSignatureStatus opId address rest
      (.checkSignatureStatus opId address :: .sleep 2 :: next.1, next.2)

/-- The `EVMTransaction` input dict as read by `_send_batch_of_transactions`:
`tx["to"]`, `tx.get("abi")`, `tx.get("functionName")`, `tx.get("args")`,
`tx.get("value", 0)`. -/
structure EVMTransaction where
  «to» : String
  abi : Option (List String)
  functionName : Option String
  args : Option (List String)
  value : Option Nat
  deriving Repr, DecidableEq

/-- The list comprehension of `_send_batch_of_transactions` (lines 331-340):
build every transaction's call data in order; the first raised
exception propagates. -/
def buildCalls (ext : ExternalFns) : List EVMTransaction → Except Err (List Call)
  | [] => .ok []
  | tx :: rest => do
    let c ← buildTransactionData ext tx.«to» tx.abi tx.functionName tx.args
      (some (tx.value.getD 0))
    let cs ← buildCalls ext rest
    .ok (c :: cs)

/-- `SmartWalletClient._send_batch_of_transactions` (lines 327-383).
Builds the call data, creates the transaction (passing the keypair
signer's address as approver, `None` when custodial), then for a
key-held signer signs `response["approvals"]["pending"][0]["message"]`
locally and submits one approval, and finally polls.  The bare dict and
list indexing of line 353 is modelled by `keyError`/`indexError`. -/
def sendBatchOfTransactions (ext : ExternalFns) (c : SmartWalletClient)
    (txs : List EVMTransaction) (env : TxEnv) : List Event × Except Err TxResult :=
  match buildCalls ext txs with
  | .error e => ([], .error e)
  | .ok calls =>
    let resp := env.createResponse
    let createEv := Event.createTransaction c.address calls c.chain
      (match c.signer with
       | .custodial _ => none
       | .keypair _ addr => some addr)
    match c.signer with
    | .custodial _ =>
      let next := pollTransactionStatus c.address resp.id env.statuses
      (createEv :: next.1, next.2)
    | .keypair sk _ =>
      if sk = "" then
        ([createEv], .error (.valueError "Signer account is not available"))
      else
        match resp.approvals with
        | none => ([createEv], .error (.keyError "approvals"))
        | some apps =>
          match apps.pending with
          | none => ([createEv], .error (.keyError "pending"))
          | some [] => ([createEv], .error .indexError)
          | some (p :: _) =>
            match p.message with
            | none => ([createEv], .error (.keyError "message"))
            | some m =>
              if m = "" then
                ([createEv], .error (.valueError "User operation hash is not available"))
              else
                let signature := ext.signHash sk m
                let approveEv := Event.approveTransaction c.address resp.id
                  [{ signature := signature,
                     signer := "evm-keypair:" ++ ext.addressOf sk }]
                let next := pollTransactionStatus c.address resp.id env.statuses
                (createEv :: Event.localSign m :: approveEv :: next.1, next.2)

/-- `SmartWalletClient.send_transaction` (lines 273-275): delegates to
`_send_batch_of_transactions([transaction])`. -/
def sendTransaction (ext : ExternalFns) (c : SmartWalletClient)
    (tx : EVMTransaction) (env : TxEnv) : List Event × Except Err TxResult :=
  sendBatchOfTransactions ext c [tx] env

/-- `SmartWalletClient.send_batch_of_transactions` (lines 277-281):
delegates to `_send_batch_of_transactions(transactions)`. -/
def sendBatchOfTransactionsPublic (ext : ExternalFns) (c : SmartWalletClient)
    (txs : List EVMTransaction) (env : TxEnv) : List Event × Except Err TxResult :=
  sendBatchOfTransactions ext c txs env

/-- `SmartWalletClient.sign_message` (lines 154-226).  The keypair
signer's derived account address (`Account.from_key(sk).address`) is
passed as approver; a key-held signer reads the first entry of
`approvals.get("pending", [])` (raising
`ValueError("No pending approvals found")` when empty and
`ValueError("No message to sign in approvals")` when its message is
absent or empty), signs it locally and submits one approval; then polls. -/
def signMessage (ext : ExternalFns) (c : SmartWalletClient) (message : String)
    (env : SignEnv) : List Event × Except Err SignResult :=
  let resp := env.createResponse
  let createEv := Event.signMessageForWallet c.address message c.chain
    (match c.signer with
     | .custodial _ => none
     | .keypair sk _ => some (ext.addressOf sk))
  match c.signer with
  | .custodial _ =>
    let next := pollSignatureStatus resp.id c.address env.statuses
    (createEv :: next.1, next.2)
  | .keypair sk _ =>
    let pendingApprovals :=
      match resp.approvals with
      | none => []
      | some apps => apps.pending.getD []
    match pendingApprovals with
    | [] => ([createEv], .error (.valueError "No pending approvals found"))
    | p :: _ =>
      match p.message with
      | none => ([createEv], .error (.valueError "No message to sign in approvals"))
      | some toSign =>
        if toSign = "" then
          ([createEv], .error (.valueError "No message to sign in approvals"))
        else
          let signature := ext.signHash sk toSign
          let approveEv := Event.approveSignature resp.id c.address
            ("evm-keypair:" ++ ext.addressOf sk) signature
          let next := pollSignatureStatus resp.id c.address env.statuses
          (createEv :: Event.localSign toSign :: approveEv :: next.1, next.2)

/-- `SmartWalletClient.sign_typed_data` (lines 228-271).  Raises
`ValueError("Keypair signer is required for typed data signing")`
before any custody-API call when the signer is custodial; otherwise
creates the request with the keypair dict's `address` as approver,
reads `response["approvals"]["pending"][0]["message"]` by bare
indexing, signs it locally, submits one approval and polls.  The typed
data payload is opaque. -/
def signTypedData (ext : ExternalFns) (c : SmartWalletClient) (data : String)
    (env : SignEnv) : List Event × Except Err SignResult :=
  match c.signer with
  | .custodial _ =>
    ([], .error (.valueError "Keypair signer is required for typed data signing"))
  | .keypair sk addr =>
    let resp := env.createResponse
    let createEv := Event.signTypedDataForWallet c.address data c.chain addr
    if sk = "" then
      ([createEv], .error (.valueError "Signer account is not available"))
    else
      match resp.approvals with
      | none => ([createEv], .error (.keyError "approvals"))
      | some apps =>
        match apps.pending with
        | none => ([createEv], .error (.keyError "pending"))
        | some [] => ([createEv], .error .indexError)
        | some (p :: _) =>
          match p.message with
          | none => ([createEv], .error (.keyError "message"))
          | some toSign =>
            let signature := ext.signHash sk toSign
            let approveEv := Event.approveSignature resp.id c.address
              ("evm-keypair:" ++ ext.addressOf sk) signature
            let next := pollSignatureStatus resp.id c.address env.statuses
            (createEv :: Event.localSign toSign :: approveEv :: next.1, next.2)

/-- Is the event an approval call to the custody API
(`approve_transaction` or `approve_signature_for_smart_wallet`)? -/
def Event.isApproveCall : Event → Bool
  | .approveTransaction _ _ _ => true
  | .approveSignature _ _ _ _ => true
  | _ => false

/-- Is the event a local `eth_account` signing call? -/
def Event.isLocalSign : Event → Bool
  | .localSign _ => true
  | _ => false

/-- Is the event a `create_transaction_for_smart_wallet` call? -/
def Event.isCreateTransaction : Event → Bool
  | .createTransaction _ _ _ _ => true
  | _ => false

/-- Is the event a `check_transaction_status` call? -/
def Event.isCheckTransactionStatus : Event → Bool
  | .checkTransactionStatus _ _ => true
  | _ => false

/-- Does the event pass no approver address to a creation endpoint?
(Non-creation events pass vacuously; the typed-data endpoint always
passes an approver.) -/
def Event.passesNoApprover : Event → Bool
  | .createTransaction _ _ _ approver => approver.isNone
  | .signMessageForWallet _ _ _ approver => approver.isNone
  | .signTypedDataForWallet _ _ _ _ => false
  | _ => true

/-- Does the key-held branch of `_send_batch_of_transactions` reach the
polling loop for this create response: non-empty secret key, a present
`approvals.pending` list with a first entry carrying a non-empty
message?  (Custodial signers always reach the poll.) -/
def keyHeldPathOk (c : SmartWalletClient) (resp : CreateResponse) : Bool :=
  match c.signer with
  | .custodial _ => true
  | .keypair sk _ =>
    (sk != "") &&
    (match resp.approvals with
     | none => false
     | some apps =>
       match apps.pending with
       | none => false
       | some [] => false
       | some (p :: _) =>
         match p.message with
         | none => false
         | some m => m != "")

/-- The transaction poller emits only status-check and sleep events, so
any predicate false on both filters its trace to nil. -/
theorem pollTx_filter_eq_nil (p : Event → Bool)
    (hc : ∀ l i, p (Event.checkTransactionStatus l i) = false)
    (hn : ∀ n, p (Event.sleep n) = false)
    (l i : String) (ss : List TxStatus) :
    (pollTransactionStatus l i ss).1.filter p = [] := by
  induction ss with
  | nil => rfl
  | cons s rest ih =>
    by_cases h : s.status = "success" ∨ s.status = "failed"
    · simp [pollTransactionStatus, h, hc]
    · simp [pollTransactionStatus, h, hc, hn, ih]

/-- The transaction poller's trace satisfies any predicate true on
status checks and sleeps. -/
theorem pollTx_all (p : Event → Bool)
    (hc : ∀ l i, p (Event.checkTransactionStatus l i) = true)
    (hn : ∀ n, p (Event.sleep n) = true)
    (l i : String) (ss : List TxStatus) :
    (pollTransactionStatus l i ss).1.all p = true := by
  induction ss with
  | nil => rfl
  | cons s rest ih =>
    by_cases h : s.status = "success" ∨ s.status = "failed"
    · simp [pollTransactionStatus, h, hc]
    · simp [pollTransactionStatus, h, hc, hn, ih]

/-- The signature poller emits only status-check and sleep events, so
any predicate false on both filters its trace to nil. -/
theorem pollSig_filter_eq_nil (p : Event → Bool)
    (hc : ∀ i a, p (Event.checkSignatureStatus i a) = false)
    (hn : ∀ n, p (Event.sleep n) = false)
    (i a : String) (ss : List SignStatus) :
    (pollSignatureStatus i a ss).1.filter p = [] := by
  induction ss with
  | nil => rfl
  | cons s rest ih =>
    by_cases h1 : s.status = "success"
    · cases hsig : s.outputSignature with
      | none => simp [pollSignatureStatus, h1, hsig, hc]
      | some sig =>
        by_cases h2 : sig = "" <;> simp [pollSignatureStatus, h1, hsig, h2, hc]
    · by_cases h2 : s.status = "failed" <;>
        simp [pollSignatureStatus, h1, h2, hc, hn, ih]

/-- The signature poller's trace satisfies any predicate true on
status checks and sleeps. -/
theorem pollSig_all (p : Event → Bool)
    (hc : ∀ i a, p (Event.checkSignatureStatus i a) = true)
    (hn : ∀ n, p (Event.sleep n) = true)
    (i a : String) (ss : List SignStatus) :
    (pollSignatureStatus i a ss).1.all p = true := by
  induction ss with
  | nil => rfl
  | cons s rest ih =>
    by_cases h1 : s.status = "success"
    · cases hsig : s.outputSignature with
      | none => simp [pollSignatureStatus, h1, hsig, hc]
      | some sig =>
        by_cases h2 : sig = "" <;> simp [pollSignatureStatus, h1, hsig, h2, hc]
    · by_cases h2 : s.status = "failed" <;>
        simp [pollSignatureStatus, h1, h2, hc, hn, ih]

/-- When the call data builds and `keyHeldPathOk` holds, batch
submission is a prefix (the create call, plus for a key-held signer the
local signature and the single approval call) followed by one run of
the transaction poller, whose result it returns; the prefix holds
exactly one create call and no status check. -/
theorem sendBatch_poll_decomp (ext : ExternalFns) (c : SmartWalletClient)
    (txs : List EVMTransaction) (env : TxEnv) (calls : List Call)
    (hb : buildCalls ext txs = .ok calls)
    (hp : keyHeldPathOk c env.createResponse = true) :
    ∃ pre,
      (sendBatchOfTransactions ext c txs env).1 =
        pre ++ (pollTransactionStatus c.address env.createResponse.id env.statuses).1 ∧
      (sendBatchOfTransactions ext c txs env).2 =
        (pollTransactionStatus c.address env.createResponse.id env.statuses).2 ∧
      (pre.filter Event.isCreateTransaction).length = 1 ∧
      pre.filter Event.isCheckTransactionStatus = [] := by
  rcases c with ⟨a, ch, sg⟩
  cases sg with
  | custodial s =>
    refine ⟨[Event.createTransaction a calls ch none], ?_, ?_, ?_, ?_⟩ <;>
      simp [sendBatchOfTransactions, hb, Event.isCreateTransaction,
        Event.isCheckTransactionStatus]
  | keypair sk kaddr =>
    simp only [keyHeldPathOk] at hp
    cases happ : (env.createResponse).approvals with
    | none => rw [happ] at hp; simp at hp
    | some apps =>
      rw [happ] at hp
      rcases apps with ⟨pend⟩
      cases pend with
      | none => simp at hp
      | some l =>
        cases l with
        | nil => simp at hp
        | cons p t =>
          rcases p with ⟨msg⟩
          cases msg with
          | none => simp at hp
          | some m =>
            simp only [Bool.and_eq_true, bne_iff_ne, ne_eq] at hp
            refine ⟨[Event.createTransaction a calls ch (some kaddr),
                     Event.localSign m,
                     Event.approveTransaction a env.createResponse.id
                       [{ signature := ext.signHash sk m,
                          signer := "evm-keypair:" ++ ext.addressOf sk }]],
                    ?_, ?_, ?_, ?_⟩ <;>
              simp [sendBatchOfTransactions, hb, happ, hp.1, hp.2,
                Event.isCreateTransaction, Event.isCheckTransactionStatus]

/-- Concrete external collaborators used by witnesses and
counterexamples: a stub ABI encoder and signing primitives. -/
def extW : ExternalFns :=
  { encodeFunction := fun _ _ _ => "0xencoded",
    signHash := fun _ m => String.append "sig:" m,
    addressOf := fun _ => "0xA11CE" }

/-- Concrete plain-transfer transaction used by witnesses. -/
def txW : EVMTransaction :=
  { «to» := "0xABC", abi := none, functionName := none, args := none,
    value := some 1000000000000000000 }

/-- Concrete custodial-signer wallet client used by witnesses. -/
def walletCustodialW : SmartWalletClient :=
  { address := "0xW", chain := "base-sepolia", signer := .custodial "0xW" }

/-- Concrete key-held-signer wallet client used by witnesses. -/
def walletKeypairW : SmartWalletClient :=
  { address := "0xW", chain := "base-sepolia", signer := .keypair "0xSECRET" "0xKP" }

/-- C3: for every LogicalTransaction without a contractCall (no abi,
function name or args), `build_transaction_data` returns a
NormalizedCall with `data = "0x"` and `value` the decimal string
rendering of the input value. -/
theorem claim_C3_plain_transfer (ext : ExternalFns)
    (recipientAddress : String) (v : Nat) :
    buildTransactionData ext recipientAddress none none none (some v) =
      .ok { «to» := recipientAddress, value := toString v, data := "0x" } := by
  by_cases h : v = 0 <;> simp [buildTransactionData, listTruthy, pyOrNat, h]

/-- C4: for every LogicalTransaction whose contractCall has a (truthy,
i.e. non-empty) abi set but functionName unset,
`build_transaction_data` fails with
`ValueError("Function name is required when ABI is provided")` and
produces no call data. -/
theorem claim_C4_abi_without_function_name (ext : ExternalFns)
    (recipientAddress : String) (a : String) (rest : List String)
    (args : Option (List String)) (value : Option Nat) :
    buildTransactionData ext recipientAddress (some (a :: rest)) none args value =
      .error (.valueError "Function name is required when ABI is provided") := by
  simp [buildTransactionData, listTruthy, strTruthy]

/-- C8: for every Custodial signer, `sign_typed_data` fails with
`ValueError("Keypair signer is required for typed data signing")` and
its event trace is empty: zero custody-API calls are made. -/
theorem claim_C8_sign_typed_data_custodial (ext : ExternalFns)
    (address chain s data : String) (env : SignEnv) :
    signTypedData ext { address := address, chain := chain, signer := .custodial s }
        data env =
      ([], .error (.valueError "Keypair signer is required for typed data signing")) :=
  rfl

/-- C10: at the public interface of `build_transaction_data`, a present
but empty abi list is treated exactly like an absent abi — a plain
value-transfer call with `data = "0x"` and no functionName requirement —
and an omitted/None value is serialized as the decimal string "0"
whatever branch is taken. -/
theorem claim_C10_empty_abi_and_default_value (ext : ExternalFns)
    (recipientAddress : String) :
    (∀ functionName args value,
        buildTransactionData ext recipientAddress (some []) functionName args value =
          buildTransactionData ext recipientAddress none functionName args value) ∧
    (∀ functionName args value,
        buildTransactionData ext recipientAddress (some []) functionName args value =
          .ok { «to» := recipientAddress, value := toString (pyOrNat value 0),
                data := "0x" }) ∧
    (∀ abi functionName args c,
        buildTransactionData ext recipientAddress abi functionName args none = .ok c →
          c.value = "0") := by
  refine ⟨fun fn args v => by simp [buildTransactionData, listTruthy],
          fun fn args v => by simp [buildTransactionData, listTruthy],
          fun abi fn args c h => ?_⟩
  unfold buildTransactionData at h
  split at h
  · cases h; rfl
  · split at h
    · cases h
    · cases h; rfl

/-- Witness for C10 at concrete inputs. -/
theorem claim_C10_witness :
    Call.value { «to» := "0xabc", value := "0", data := "0x" } = "0" :=
  (claim_C10_empty_abi_and_default_value extW "0xabc").2.2 none none none
    { «to» := "0xabc", value := "0", data := "0x" } rfl

/-- C5: for every Custodial signer, transaction submission and message
signing make no local signing call and no approve call to the custody
API, and every creation request passes approver `None`; the keypair
signer's address is passed (as `some`) exactly when the signer is
key-held. -/
theorem claim_C5_custodial_no_local_sign_no_approval (ext : ExternalFns)
    (address chain s message : String) (txs : List EVMTransaction)
    (env : TxEnv) (senv : SignEnv) :
    ((sendBatchOfTransactions ext
        { address := address, chain := chain, signer := .custodial s }
        txs env).1.filter Event.isApproveCall = [] ∧
     (sendBatchOfTransactions ext
        { address := address, chain := chain, signer := .custodial s }
        txs env).1.filter Event.isLocalSign = [] ∧
     (sendBatchOfTransactions ext
        { address := address, chain := chain, signer := .custodial s }
        txs env).1.all Event.passesNoApprover = true) ∧
    ((signMessage ext
        { address := address, chain := chain, signer := .custodial s }
        message senv).1.filter Event.isApproveCall = [] ∧
     (signMessage ext
        { address := address, chain := chain, signer := .custodial s }
        message senv).1.filter Event.isLocalSign = [] ∧
     (signMessage ext
        { address := address, chain := chain, signer := .custodial s }
        message senv).1.all Event.passesNoApprover = true) ∧
    (∀ sk kaddr calls, buildCalls ext txs = .ok calls →
        (sendBatchOfTransactions ext
          { address := address, chain := chain, signer := .keypair sk kaddr }
          txs env).1.head? =
          some (Event.createTransaction address calls chain (some kaddr))) := by
  refine ⟨⟨?_, ?_, ?_⟩, ⟨?_, ?_, ?_⟩, ?_⟩
  · cases hb : buildCalls ext txs with
    | error e => simp [sendBatchOfTransactions, hb]
    | ok calls =>
      simp [sendBatchOfTransactions, hb, Event.isApproveCall,
        pollTx_filter_eq_nil Event.isApproveCall (fun _ _ => rfl) (fun _ => rfl)]
  · cases hb : buildCalls ext txs with
    | error e => simp [sendBatchOfTransactions, hb]
    | ok calls =>
      simp [sendBatchOfTransactions, hb, Event.isLocalSign,
        pollTx_filter_eq_nil Event.isLocalSign (fun _ _ => rfl) (fun _ => rfl)]
  · cases hb : buildCalls ext txs with
    | error e => simp [sendBatchOfTransactions, hb]
    | ok calls =>
      simp [sendBatchOfTransactions, hb, Event.passesNoApprover,
        pollTx_all Event.passesNoApprover (fun _ _ => rfl) (fun _ => rfl)]
  · simp [signMessage, Event.isApproveCall,
      pollSig_filter_eq_nil Event.isApproveCall (fun _ _ => rfl) (fun _ => rfl)]
  · simp [signMessage, Event.isLocalSign,
      pollSig_filter_eq_nil Event.isLocalSign (fun _ _ => rfl) (fun _ => rfl)]
  · simp [signMessage, Event.passesNoApprover,
      pollSig_all Event.passesNoApprover (fun _ _ => rfl) (fun _ => rfl)]
  · intro sk kaddr calls hb
    by_cases hsk : sk = ""
    · simp [sendBatchOfTransactions, hb, hsk]
    · cases happ : (env.createResponse).approvals with
      | none => simp [sendBatchOfTransactions, hb, hsk, happ]
      | some apps =>
        rcases apps with ⟨pend⟩
        cases pend with
        | none => simp [sendBatchOfTransactions, hb, hsk, happ]
        | some l =>
          cases l with
          | nil => simp [sendBatchOfTransactions, hb, hsk, happ]
          | cons p t =>
            rcases p with ⟨msg⟩
            cases msg with
            | none => simp [sendBatchOfTransactions, hb, hsk, happ]
            | some m =>
              by_cases hm : m = "" <;>
                simp [sendBatchOfTransactions, hb, hsk, happ, hm]

/-- Witness for C5 at concrete inputs (key-held create passes the
signer's address). -/
theorem claim_C5_witness :
    buildCalls extW [txW] =
      .ok [{ «to» := "0xABC", value := "1000000000000000000", data := "0x" }] ∧
    (sendBatchOfTransactions extW
        { address := "0xW", chain := "base-sepolia",
          signer := .keypair "0xSECRET" "0xKP" }
        [txW]
        { createResponse := { id := "op1", approvals := none },
          statuses := [] }).1.head? =
      some (Event.createTransaction "0xW"
        [{ «to» := "0xABC", value := "1000000000000000000", data := "0x" }]
        "base-sepolia" (some "0xKP")) :=
  ⟨rfl,
   (claim_C5_custodial_no_local_sign_no_approval extW "0xW" "base-sepolia" "0xW"
      "hello" [txW]
      { createResponse := { id := "op1", approvals := none }, statuses := [] }
      { createResponse := { id := "s1", approvals := none }, statuses := [] }).2.2
     "0xSECRET" "0xKP"
     [{ «to» := "0xABC", value := "1000000000000000000", data := "0x" }] rfl⟩

/-- C6: for every non-empty transaction list whose call data builds and
whose signer path reaches the poll, batch submission makes exactly one
create call, all its status checks come from the single poller run whose
result it returns, and single-transaction submission is definitionally
the batch-of-one submission. -/
theorem claim_C6_one_create_one_poll (ext : ExternalFns) (c : SmartWalletClient)
    (txs : List EVMTransaction) (env : TxEnv) (calls : List Call)
    (_hN : txs ≠ [])
    (hb : buildCalls ext txs = .ok calls)
    (hp : keyHeldPathOk c env.createResponse = true) :
    ((sendBatchOfTransactions ext c txs env).1.filter
        Event.isCreateTransaction).length = 1 ∧
    (sendBatchOfTransactions ext c txs env).1.filter
        Event.isCheckTransactionStatus =
      (pollTransactionStatus c.address env.createResponse.id env.statuses).1.filter
        Event.isCheckTransactionStatus ∧
    (sendBatchOfTransactions ext c txs env).2 =
      (pollTransactionStatus c.address env.createResponse.id env.statuses).2 ∧
    (∀ tx env2, sendTransaction ext c tx env2 =
      sendBatchOfTransactions ext c [tx] env2) := by
  obtain ⟨pre, h1, h2, h3, h4⟩ := sendBatch_poll_decomp ext c txs env calls hb hp
  refine ⟨?_, ?_, h2, fun tx env2 => rfl⟩
  · rw [h1, List.filter_append,
      pollTx_filter_eq_nil Event.isCreateTransaction (fun _ _ => rfl) (fun _ => rfl)]
    simp [h3]
  · rw [h1, List.filter_append, h4]
    simp

/-- Witness for C6 at concrete inputs. -/
theorem claim_C6_witness :
    ([txW] ≠ []) ∧
    buildCalls extW [txW] =
      .ok [{ «to» := "0xABC", value := "1000000000000000000", data := "0x" }] ∧
    keyHeldPathOk walletCustodialW
      (CreateResponse.mk "op1" none) = true ∧
    ((sendBatchOfTransactions extW walletCustodialW [txW]
        { createResponse := { id := "op1", approvals := none },
          statuses := [{ status := "success",
                         onChain := some { txId := some "0xTX1" } }] }).1.filter
        Event.isCreateTransaction).length = 1 :=
  ⟨by decide, rfl, rfl,
   (claim_C6_one_create_one_poll extW walletCustodialW [txW]
      { createResponse := { id := "op1", approvals := none },
        statuses := [{ status := "success",
                       onChain := some { txId := some "0xTX1" } }] }
      [{ «to» := "0xABC", value := "1000000000000000000", data := "0x" }]
      (by decide) rfl rfl).1⟩

/-- C7: both polling loops return on the first terminal status they
observe with no sleep (the transaction poller returning that status);
a non-terminal observation is followed by exactly one sleep of 2
seconds before the next fetch; and for every finite number of
consecutive `pending` statuses the loop has produced no result (no
attempt bound or deadline exists). -/
theorem claim_C7_poller_timing (l i opId addr : String) :
    (∀ s rest, (s.status = "success" ∨ s.status = "failed") →
        pollTransactionStatus l i (s :: rest) =
          ([Event.checkTransactionStatus l i],
           .ok { hash := (match s.onChain with
                          | none => ""
                          | some oc => oc.txId.getD ""),
                 status := s.status })) ∧
    (∀ s rest, s.status ≠ "success" → s.status ≠ "failed" →
        pollTransactionStatus l i (s :: rest) =
          (Event.checkTransactionStatus l i :: Event.sleep 2 ::
             (pollTransactionStatus l i rest).1,
           (pollTransactionStatus l i rest).2)) ∧
    (∀ n, pollTransactionStatus l i
        (List.replicate n { status := "pending", onChain := none }) =
          ((List.replicate n
            [Event.checkTransactionStatus l i, Event.sleep 2]).flatten,
           .error .outOfFuel)) ∧
    (∀ s rest, (s.status = "success" ∨ s.status = "failed") →
        (pollSignatureStatus opId addr (s :: rest)).1 =
          [Event.checkSignatureStatus opId addr]) ∧
    (∀ s rest, s.status ≠ "success" → s.status ≠ "failed" →
        pollSignatureStatus opId addr (s :: rest) =
          (Event.checkSignatureStatus opId addr :: Event.sleep 2 ::
             (pollSignatureStatus opId addr rest).1,
           (pollSignatureStatus opId addr rest).2)) ∧
    (∀ n, pollSignatureStatus opId addr
        (List.replicate n { status := "pending", outputSignature := none }) =
          ((List.replicate n
            [Event.checkSignatureStatus opId addr, Event.sleep 2]).flatten,
           .error .outOfFuel)) := by
  refine ⟨?_, ?_, ?_, ?_, ?_, ?_⟩
  · intro s rest h
    simp [pollTransactionStatus, h]
  · intro s rest h1 h2
    have h : ¬(s.status = "success" ∨ s.status = "failed") := by simp [h1, h2]
    simp [pollTransactionStatus, h]
  · intro n
    induction n with
    | zero => rfl
    | succ k ih => simp [List.replicate_succ, pollTransactionStatus, ih]
  · intro s rest h
    rcases h with h | h
    · cases hsig : s.outputSignature with
      | none => simp [pollSignatureStatus, h, hsig]
      | some sig =>
        by_cases h2 : sig = "" <;> simp [pollSignatureStatus, h, hsig, h2]
    · have h1 : s.status ≠ "success" := by rw [h]; decide
      simp [pollSignatureStatus, h, h1]
  · intro s rest h1 h2
    simp [pollSignatureStatus, h1, h2]
  · intro n
    induction n with
    | zero => rfl
    | succ k ih => simp [List.replicate_succ, pollSignatureStatus, ih]

/-- Witness for C7 at concrete inputs. -/
theorem claim_C7_witness :
    ((TxStatus.mk "failed" none).status = "success" ∨
      (TxStatus.mk "failed" none).status = "failed") ∧
    pollTransactionStatus "0xW" "op1" [{ status := "failed", onChain := none }] =
      ([Event.checkTransactionStatus "0xW" "op1"],
       .ok { hash := "", status := "failed" }) ∧
    pollTransactionStatus "0xW" "op1"
        (List.replicate 3 { status := "pending", onChain := none }) =
      ((List.replicate 3
        [Event.checkTransactionStatus "0xW" "op1", Event.sleep 2]).flatten,
       .error .outOfFuel) :=
  ⟨Or.inr rfl,
   (claim_C7_poller_timing "0xW" "op1" "s1" "0xW").1
     { status := "failed", onChain := none } [] (Or.inr rfl),
   (claim_C7_poller_timing "0xW" "op1" "s1" "0xW").2.2.1 3⟩

/-- Signing environment whose first (and only) polled status is `failed`. -/
def senvFailedW : SignEnv :=
  { createResponse := { id := "s1", approvals := none },
    statuses := [{ status := "failed", outputSignature := none }] }

/-- Transaction environment whose first polled status is `failed` and
carries an on-chain transaction id. -/
def envFailedTxW : TxEnv :=
  { createResponse := { id := "op1", approvals := none },
    statuses := [{ status := "failed", onChain := some { txId := some "0xT1" } }] }

/-- Transaction environment whose create response has an empty
`approvals.pending` list. -/
def envEmptyPendingW : TxEnv :=
  { createResponse := { id := "op1", approvals := some { pending := some [] } },
    statuses := [] }

/-- Signing environment whose first polled status is `success` with a
present but empty `outputSignature`. -/
def senvEmptySigW : SignEnv :=
  { createResponse := { id := "s1", approvals := none },
    statuses := [{ status := "success", outputSignature := some "" }] }

/-- C1 counterexample: for a signing operation (here `sign_message` with
a custodial signer), a terminal `failed` status is raised as
`ValueError("Signature failed")`, not returned as a result. -/
theorem claim_C1_counterexample :
    (signMessage extW walletCustodialW "hello" senvFailedW).2 =
      .error (.valueError "Signature failed") := rfl

/-- C1 amended: for transaction submission a terminal `failed` status is
surfaced as the returned result `{hash: onChain.txId or "", status:
"failed"}`; for signing operations (`sign_message`, `sign_typed_data`,
whose loops are `pollSignatureStatus`) a terminal `failed` status
raises `ValueError("Signature failed")`. -/
theorem claim_C1_amended_failed_handling (ext : ExternalFns)
    (c : SmartWalletClient) (txs : List EVMTransaction) (env : TxEnv)
    (calls : List Call) (s : TxStatus) (trest : List TxStatus)
    (hb : buildCalls ext txs = .ok calls)
    (hp : keyHeldPathOk c env.createResponse = true)
    (henv : env.statuses = s :: trest) (hs : s.status = "failed") :
    (sendBatchOfTransactions ext c txs env).2 =
      .ok { hash := (match s.onChain with
                     | none => ""
                     | some oc => oc.txId.getD ""),
            status := "failed" } ∧
    (∀ a ch sg msg senv ss srest,
        SignEnv.statuses senv = ss :: srest → SignStatus.status ss = "failed" →
        (signMessage ext { address := a, chain := ch, signer := .custodial sg }
            msg senv).2 =
          .error (.valueError "Signature failed")) ∧
    (∀ sigId a ss srest, SignStatus.status ss = "failed" →
        (pollSignatureStatus sigId a (ss :: srest)).2 =
          .error (.valueError "Signature failed")) := by
  refine ⟨?_, ?_, ?_⟩
  · obtain ⟨pre, h1, h2, h3, h4⟩ := sendBatch_poll_decomp ext c txs env calls hb hp
    rw [h2, henv]
    have hns : s.status ≠ "success" := by rw [hs]; decide
    simp [pollTransactionStatus, hs, hns]
  · intro a ch sg msg senv ss srest hsenv hss
    have hns : ss.status ≠ "success" := by rw [hss]; decide
    simp [signMessage, hsenv, pollSignatureStatus, hss, hns]
  · intro sigId a ss srest hss
    have hns : ss.status ≠ "success" := by rw [hss]; decide
    simp [pollSignatureStatus, hss, hns]

/-- Witness for the amended C1 at concrete inputs. -/
theorem claim_C1_witness :
    buildCalls extW [txW] =
      .ok [{ «to» := "0xABC", value := "1000000000000000000", data := "0x" }] ∧
    keyHeldPathOk walletCustodialW envFailedTxW.createResponse = true ∧
    envFailedTxW.statuses =
      { status := "failed", onChain := some { txId := some "0xT1" } } ::
        ([] : List TxStatus) ∧
    (sendBatchOfTransactions extW walletCustodialW [txW] envFailedTxW).2 =
      .ok { hash := "0xT1", status := "failed" } :=
  ⟨rfl, rfl, rfl,
   (claim_C1_amended_failed_handling extW walletCustodialW [txW] envFailedTxW
      [{ «to» := "0xABC", value := "1000000000000000000", data := "0x" }]
      { status := "failed", onChain := some { txId := some "0xT1" } } []
      rfl rfl rfl rfl).1⟩

/-- C2 counterexample: for a key-held signer whose new PendingOperation
has an empty `approvals.pending` list, `_send_batch_of_transactions`
fails with a bare `IndexError` from `["pending"][0]` (not the
ProtocolError-style `ValueError` check used by `sign_message`), and no
approval call is issued. -/
theorem claim_C2_counterexample :
    (sendBatchOfTransactions extW walletKeypairW [txW] envEmptyPendingW).2 =
      .error .indexError ∧
    (sendBatchOfTransactions extW walletKeypairW [txW]
        envEmptyPendingW).1.filter Event.isApproveCall = [] :=
  ⟨rfl, rfl⟩

/-- C2 amended: for a key-held signer the submitter signs exactly the
first entry of the pending-approvals list and submits exactly one
approval carrying that signature; if the list is empty, submission
fails with an uncaught `IndexError` (no explicit ProtocolError check)
and no approval call is issued. -/
theorem claim_C2_amended_first_pending_approval (ext : ExternalFns)
    (a ch sk kaddr : String) (txs : List EVMTransaction) (env : TxEnv)
    (calls : List Call) (t : List PendingApproval) (m : String)
    (hb : buildCalls ext txs = .ok calls) (hsk : sk ≠ "") :
    (CreateResponse.approvals env.createResponse =
        some { pending := some ({ message := some m } :: t) } → m ≠ "" →
      (sendBatchOfTransactions ext
          { address := a, chain := ch, signer := .keypair sk kaddr }
          txs env).1.filter Event.isApproveCall =
        [Event.approveTransaction a env.createResponse.id
          [{ signature := ext.signHash sk m,
             signer := "evm-keypair:" ++ ext.addressOf sk }]] ∧
      (sendBatchOfTransactions ext
          { address := a, chain := ch, signer := .keypair sk kaddr }
          txs env).1.filter Event.isLocalSign = [Event.localSign m]) ∧
    (CreateResponse.approvals env.createResponse =
        some { pending := some [] } →
      (sendBatchOfTransactions ext
          { address := a, chain := ch, signer := .keypair sk kaddr }
          txs env).2 = .error .indexError ∧
      (sendBatchOfTransactions ext
          { address := a, chain := ch, signer := .keypair sk kaddr }
          txs env).1.filter Event.isApproveCall = []) := by
  constructor
  · intro happ hm
    constructor
    · simp [sendBatchOfTransactions, hb, happ, hsk, hm, Event.isApproveCall,
        pollTx_filter_eq_nil Event.isApproveCall (fun _ _ => rfl) (fun _ => rfl)]
    · simp [sendBatchOfTransactions, hb, happ, hsk, hm, Event.isLocalSign,
        pollTx_filter_eq_nil Event.isLocalSign (fun _ _ => rfl) (fun _ => rfl)]
  · intro happ
    constructor
    · simp [sendBatchOfTransactions, hb, happ, hsk]
    · simp [sendBatchOfTransactions, hb, happ, hsk, Event.isApproveCall]

/-- Witness for the amended C2 at concrete inputs: the single approval
submitted carries the signature of the first pending message. -/
theorem claim_C2_witness :
    buildCalls extW [txW] =
      .ok [{ «to» := "0xABC", value := "1000000000000000000", data := "0x" }] ∧
    ("0xSECRET" : String) ≠ "" ∧
    (sendBatchOfTransactions extW
        { address := "0xW", chain := "base-sepolia",
          signer := .keypair "0xSECRET" "0xKP" }
        [txW]
        { createResponse :=
            { id := "op1",
              approvals := some { pending := some [{ message := some "0xDEAD" }] } },
          statuses := [] }).1.filter Event.isApproveCall =
      [Event.approveTransaction "0xW" "op1"
        [{ signature := "sig:0xDEAD", signer := "evm-keypair:0xA11CE" }]] :=
  ⟨rfl, by decide,
   ((claim_C2_amended_first_pending_approval extW "0xW" "base-sepolia" "0xSECRET"
      "0xKP" [txW]
      { createResponse :=
          { id := "op1",
            approvals := some { pending := some [{ message := some "0xDEAD" }] } },
        statuses := [] }
      [{ «to» := "0xABC", value := "1000000000000000000", data := "0x" }]
      [] "0xDEAD" rfl (by decide)).1 rfl (by decide)).1⟩

/-- C9 counterexample: on `success` with `outputSignature` present but
empty, `sign_message` raises `ValueError("Signature is undefined")`
instead of returning `{signature: ""}` as the claim's "otherwise"
branch states. -/
theorem claim_C9_counterexample :
    (signMessage extW walletCustodialW "hello" senvEmptySigW).2 =
      .error (.valueError "Signature is undefined") := rfl

/-- C9 amended: for every signing operation, a polled `success` status
with `outputSignature` absent or empty fails with
`ValueError("Signature is undefined")` and is never treated as a
successful result; on `success` with a non-empty `outputSignature` the
operation returns `{signature: outputSignature}`. -/
theorem claim_C9_amended_output_signature (opId addr : String) :
    (∀ s rest, SignStatus.status s = "success" →
        (SignStatus.outputSignature s = none ∨
          SignStatus.outputSignature s = some "") →
        pollSignatureStatus opId addr (s :: rest) =
          ([Event.checkSignatureStatus opId addr],
           .error (.valueError "Signature is undefined"))) ∧
    (∀ s rest sig, SignStatus.status s = "success" →
        SignStatus.outputSignature s = some sig → sig ≠ "" →
        pollSignatureStatus opId addr (s :: rest) =
          ([Event.checkSignatureStatus opId addr], .ok { signature := sig })) ∧
    (∀ ext a ch sg msg senv s rest, SignEnv.statuses senv = s :: rest →
        SignStatus.status s = "success" →
        (SignStatus.outputSignature s = none ∨
          SignStatus.outputSignature s = some "") →
        (signMessage ext { address := a, chain := ch, signer := .custodial sg }
            msg senv).2 =
          .error (.valueError "Signature is undefined")) ∧
    (∀ ext a ch sg msg senv s rest sig, SignEnv.statuses senv = s :: rest →
        SignStatus.status s = "success" →
        SignStatus.outputSignature s = some sig → sig ≠ "" →
        (signMessage ext { address := a, chain := ch, signer := .custodial sg }
            msg senv).2 = .ok { signature := sig }) ∧
    (∀ ext a ch sk kaddr d senv t m s rest, sk ≠ "" →
        CreateResponse.approvals senv.createResponse =
          some { pending := some ({ message := some m } :: t) } →
        SignEnv.statuses senv = s :: rest →
        SignStatus.status s = "success" →
        SignStatus.outputSignature s = none →
        (signTypedData ext { address := a, chain := ch, signer := .keypair sk kaddr }
            d senv).2 =
          .error (.valueError "Signature is undefined")) := by
  refine ⟨?_, ?_, ?_, ?_, ?_⟩
  · intro s rest hst hsig
    rcases hsig with hsig | hsig <;> simp [pollSignatureStatus, hst, hsig]
  · intro s rest sig hst hsig hne
    simp [pollSignatureStatus, hst, hsig, hne]
  · intro ext a ch sg msg senv s rest hsenv hst hsig
    rcases hsig with hsig | hsig <;>
      simp [signMessage, hsenv, pollSignatureStatus, hst, hsig]
  · intro ext a ch sg msg senv s rest sig hsenv hst hsig hne
    simp [signMessage, hsenv, pollSignatureStatus, hst, hsig, hne]
  · intro ext a ch sk kaddr d senv t m s rest hsk happ hsenv hst hsig
    simp [signTypedData, hsk, happ, hsenv, pollSignatureStatus, hst, hsig]

/-- Witness for the amended C9 at concrete inputs. -/
theorem claim_C9_witness :
    SignStatus.status { status := "success", outputSignature := some "0xS1G" } =
      "success" ∧
    ("0xS1G" : String) ≠ "" ∧
    pollSignatureStatus "s1" "0xW"
        [{ status := "success", outputSignature := some "0xS1G" }] =
      ([Event.checkSignatureStatus "s1" "0xW"], .ok { signature := "0xS1G" }) :=
  ⟨rfl, by decide,
   (claim_C9_amended_output_signature "s1" "0xW").2.1
     { status := "success", outputSignature := some "0xS1G" } [] "0xS1G"
     rfl rfl (by decide)⟩
